import Mathlib

/-!
Verification of `power_triangle_harmonics.py`.

The program is a single-file matplotlib application.  `update_plot`
(lines 6-64) clears the previously drawn quiver arrows, validates the
three scalar inputs, computes the derived power-triangle quantities,
draws the arrows, rescales the axes and regenerates the text report;
`update_text_box` (lines 66-88) builds the report string; `submit`
(lines 91-112) parses the three text fields, calls `update_plot` and
catches any `ValueError` at the dispatch boundary.

The shallow embedding below models the scalar inputs as real numbers,
the mutable UI (axes arrows, axis limits, report text box) as an
explicit `UIState` record, the Python `:.2f` float formatting as an
abstract parameter `fmt : ℝ → String`, and a raised-and-caught
`ValueError` as an `Option String` component threaded through
`update_plot` and `submit`.
-/

namespace PowerTriangle

/-- Line 16 of the source: `fi = np.arccos(cos_fi)`. -/
noncomputable def fi (cos_fi : ℝ) : ℝ := Real.arccos cos_fi

/-- Line 17: `Q1_mag = P1_mag * np.tan(fi)`. -/
noncomputable def Q1_mag (P1_mag cos_fi : ℝ) : ℝ := P1_mag * Real.tan (fi cos_fi)

/-- Line 18: `S1_mag = np.sqrt(P1_mag**2 + Q1_mag**2)`. -/
noncomputable def S1_mag (P1_mag cos_fi : ℝ) : ℝ :=
  Real.sqrt (P1_mag ^ 2 + Q1_mag P1_mag cos_fi ^ 2)

/-- Lines 20-25: `S2_mag = 0` when `D_mag == 0`, else
`np.sqrt(S1_mag**2 + D_mag**2)`. -/
noncomputable def S2_mag (P1_mag cos_fi D_mag : ℝ) : ℝ :=
  if D_mag = 0 then 0 else Real.sqrt (S1_mag P1_mag cos_fi ^ 2 + D_mag ^ 2)

/-- Lines 20-26: `Q2_mag = 0` when `D_mag == 0`, else
`np.sqrt(Q1_mag**2 + D_mag**2)`. -/
noncomputable def Q2_mag (P1_mag cos_fi D_mag : ℝ) : ℝ :=
  if D_mag = 0 then 0 else Real.sqrt (Q1_mag P1_mag cos_fi ^ 2 + D_mag ^ 2)

/-- Lines 20-27: `theta = 0` when `D_mag == 0`, else
`np.arccos(P1_mag / S2_mag)`. -/
noncomputable def theta (P1_mag cos_fi D_mag : ℝ) : ℝ :=
  if D_mag = 0 then 0 else Real.arccos (P1_mag / S2_mag P1_mag cos_fi D_mag)

/-- The vectors of lines 30-35 are length-3 numpy arrays. -/
structure Vec3 where
  x : ℝ
  y : ℝ
  z : ℝ

instance : Add Vec3 := ⟨fun a b => ⟨a.x + b.x, a.y + b.y, a.z + b.z⟩⟩

instance : Sub Vec3 := ⟨fun a b => ⟨a.x - b.x, a.y - b.y, a.z - b.z⟩⟩

/-- Euclidean norm of a drawn vector. -/
noncomputable def Vec3.norm (v : Vec3) : ℝ := Real.sqrt (v.x ^ 2 + v.y ^ 2 + v.z ^ 2)

/-- Line 30: `P = np.array([P1_mag, 0, 0])`. -/
noncomputable def Pvec (P1_mag : ℝ) : Vec3 := ⟨P1_mag, 0, 0⟩

/-- Line 31: `Q1 = np.array([0, Q1_mag, 0])`. -/
noncomputable def Q1vec (P1_mag cos_fi : ℝ) : Vec3 := ⟨0, Q1_mag P1_mag cos_fi, 0⟩

/-- Line 32: `S1 = P + Q1`. -/
noncomputable def S1vec (P1_mag cos_fi : ℝ) : Vec3 := Pvec P1_mag + Q1vec P1_mag cos_fi

/-- Line 33: `D = np.array([0, 0, D_mag])`. -/
noncomputable def Dvec (D_mag : ℝ) : Vec3 := ⟨0, 0, D_mag⟩

/-- Line 34: `S2 = S1 + D`. -/
noncomputable def S2vec (P1_mag cos_fi D_mag : ℝ) : Vec3 :=
  S1vec P1_mag cos_fi + Dvec D_mag

/-- Line 35: `Q2 = S2 - P`. -/
noncomputable def Q2vec (P1_mag cos_fi D_mag : ℝ) : Vec3 :=
  S2vec P1_mag cos_fi D_mag - Pvec P1_mag

/-- One `ax.quiver(sx, sy, sz, vx, vy, vz, color=..., label=...)` call:
an arrow drawn from `start` along `vec`. -/
structure Arrow where
  start : Vec3
  vec : Vec3
  color : String
  label : String

/-- Python `np.degrees`: radians to degrees. -/
noncomputable def degrees (x : ℝ) : ℝ := x * 180 / Real.pi

/-- `update_text_box` (lines 66-88): the report string placed in the
read-only text box.  `fmt` models Python `:.2f` formatting of a float;
the `D_mag == 0` branch hard-codes the `S2`, `Q2`, power-factor and `θ`
figures as literal zeros. -/
noncomputable def update_text_box (fmt : ℝ → String)
    (P1_mag cos_fi D_mag S1_mag Q1_mag S2_mag Q2_mag fi theta : ℝ) : String :=
  if D_mag = 0 then
    " • Apparent Power (S1): " ++ fmt S1_mag ++ " kVA\n\n" ++
    " • Reactive Power (Q1): " ++ fmt Q1_mag ++ " kVAr\n\n" ++
    " • Active Power (P): " ++ fmt P1_mag ++ " kW\n\n" ++
    " • Cos(φ): " ++ fmt cos_fi ++ "\n\n" ++
    " • Angle φ: " ++ fmt (degrees fi) ++ "°\n\n" ++
    " • Harmonic Distortion (D): " ++ fmt D_mag ++ " kVAr\n\n" ++
    " • Apparent Power (S2): 0 kVA\n\n" ++
    " • Reactive Power (Q2): 0 kVAr\n\n" ++
    " • Power Factor: 0\n\n" ++
    " • Angle θ: 0°"
  else
    " • Apparent Power (S1): " ++ fmt S1_mag ++ " kVA\n\n" ++
    " • Reactive Power (Q1): " ++ fmt Q1_mag ++ " kVAr\n\n" ++
    " • Active Power (P): " ++ fmt P1_mag ++ " kW\n\n" ++
    " • Cos(φ): " ++ fmt cos_fi ++ "\n\n" ++
    " • Angle φ: " ++ fmt (degrees fi) ++ "°\n\n" ++
    " • Harmonic Distortion (D): " ++ fmt D_mag ++ " kVAr\n\n" ++
    " • Apparent Power (S2): " ++ fmt S2_mag ++ " kVA\n\n" ++
    " • Reactive Power (Q2): " ++ fmt Q2_mag ++ " kVAr\n\n" ++
    " • Power Factor: " ++ fmt (P1_mag / S2_mag) ++ "\n\n" ++
    " • Angle θ: " ++ fmt (degrees theta) ++ "°"

/-- The mutable UI state touched by `update_plot`: the arrows drawn on
the 3D axes, the three axis limits, and the output text box contents.
The axis labels, title and legend are constant chrome and not modelled. -/
structure UIState where
  arrows : List Arrow
  xlim : ℝ × ℝ
  ylim : ℝ × ℝ
  zlim : ℝ × ℝ
  reportText : String

/-- The `ValueError` message of line 13. -/
def rangeErrorMsg : String :=
  "Values out of range. P1 must be greater than 0, D must be greater than or equal to 0, and cos(fi) between 0 and 1."

/-- `update_plot` (lines 6-64).  Lines 8-9 remove every previously drawn
arrow BEFORE the validation check of line 12, so when the `ValueError`
is raised (modelled as the `some` error component) the returned state
already has its arrow list cleared; on success everything is recomputed
from the three inputs alone.  The `if D_mag > 0` guard of line 42 keeps
the `D`, `Q2`, `S2` arrows out of the drawn set when `D_mag = 0`. -/
noncomputable def update_plot (fmt : ℝ → String) (P1_mag cos_fi D_mag : ℝ)
    (s : UIState) : UIState × Option String :=
  let cleared : UIState := { s with arrows := [] }
  if P1_mag ≤ 0 ∨ D_mag < 0 ∨ ¬(0 < cos_fi ∧ cos_fi < 1) then
    (cleared, some rangeErrorMsg)
  else
    let fiv := fi cos_fi
    let Q1m := Q1_mag P1_mag cos_fi
    let S1m := S1_mag P1_mag cos_fi
    let S2m := S2_mag P1_mag cos_fi D_mag
    let Q2m := Q2_mag P1_mag cos_fi D_mag
    let th := theta P1_mag cos_fi D_mag
    let P := Pvec P1_mag
    let Q1 := Q1vec P1_mag cos_fi
    let S1 := S1vec P1_mag cos_fi
    let D := Dvec D_mag
    let S2 := S2vec P1_mag cos_fi D_mag
    let Q2 := Q2vec P1_mag cos_fi D_mag
    let base : List Arrow :=
      [⟨⟨0, 0, 0⟩, P, "r", "P"⟩, ⟨P, Q1, "maroon", "Q1"⟩, ⟨⟨0, 0, 0⟩, S1, "g", "S1"⟩]
    let extra : List Arrow :=
      if 0 < D_mag then
        [⟨S1, D, "orange", "D"⟩, ⟨P, Q2, "purple", "Q2"⟩, ⟨⟨0, 0, 0⟩, S2, "b", "S2"⟩]
      else []
    let max_lim := max P1_mag D_mag * 2
    ({ arrows := base ++ extra,
       xlim := (0, max_lim), ylim := (0, max_lim), zlim := (0, max_lim),
       reportText := update_text_box fmt P1_mag cos_fi D_mag S1m Q1m S2m Q2m fiv th },
     none)

/-- `submit` (lines 91-112): each of the three text fields is parsed
with `float`; a parse failure raises `ValueError` before `update_plot`
runs, so nothing is mutated (modelled by a `none` field).  When all
three parse, `update_plot` runs and any `ValueError` it raises is
caught and printed, leaving whatever mutations already happened. -/
noncomputable def submit (fmt : ℝ → String)
    (P1text cosText Dtext : Option ℝ) (s : UIState) : UIState :=
  match P1text, cosText, Dtext with
  | some P1_mag, some cos_fi, some D_mag => (update_plot fmt P1_mag cos_fi D_mag s).1
  | _, _, _ => s

/-- A trivial concrete formatter, standing in for `:.2f` in closed
evaluations (the theorems hold for every `fmt`). -/
def fmt0 : ℝ → String := fun _ => ""

/-- The empty figure created at lines 114-139, before the initial
`update_plot(1, 0.8, 1, ax)` call of line 142. -/
def initialUI : UIState := ⟨[], (0, 0), (0, 0), (0, 0), ""⟩

/-- The state after line 142: the default plot for `P=1, cosφ=0.8, D=1`. -/
noncomputable def defaultUI : UIState := (update_plot fmt0 1 0.8 1 initialUI).1

/-! ### Helper lemmas shared by the claim theorems -/

lemma S1_mag_nonneg (P c : ℝ) : 0 ≤ S1_mag P c := Real.sqrt_nonneg _

lemma le_S1_mag (P c : ℝ) : P ≤ S1_mag P c := by
  calc P ≤ |P| := le_abs_self P
    _ = Real.sqrt (P ^ 2) := (Real.sqrt_sq_eq_abs P).symm
    _ ≤ S1_mag P c := Real.sqrt_le_sqrt (le_add_of_nonneg_right (sq_nonneg _))

lemma S2_mag_of_pos (P c D : ℝ) (hD : 0 < D) :
    S2_mag P c D = Real.sqrt (S1_mag P c ^ 2 + D ^ 2) := by
  unfold S2_mag
  rw [if_neg hD.ne']

lemma Q2_mag_of_pos (P c D : ℝ) (hD : 0 < D) :
    Q2_mag P c D = Real.sqrt (Q1_mag P c ^ 2 + D ^ 2) := by
  unfold Q2_mag
  rw [if_neg hD.ne']

lemma S2_mag_pos (P c D : ℝ) (hD : 0 < D) : 0 < S2_mag P c D := by
  rw [S2_mag_of_pos P c D hD]
  exact Real.sqrt_pos.mpr (by positivity)

lemma S1_le_S2 (P c D : ℝ) (hD : 0 < D) : S1_mag P c ≤ S2_mag P c D := by
  rw [S2_mag_of_pos P c D hD]
  calc S1_mag P c = Real.sqrt (S1_mag P c ^ 2) :=
        (Real.sqrt_sq (S1_mag_nonneg P c)).symm
    _ ≤ Real.sqrt (S1_mag P c ^ 2 + D ^ 2) :=
        Real.sqrt_le_sqrt (le_add_of_nonneg_right (sq_nonneg _))

lemma Q1_le_Q2 (P c D : ℝ) (hD : 0 < D) : Q1_mag P c ≤ Q2_mag P c D := by
  rw [Q2_mag_of_pos P c D hD]
  calc Q1_mag P c ≤ |Q1_mag P c| := le_abs_self _
    _ = Real.sqrt (Q1_mag P c ^ 2) := (Real.sqrt_sq_eq_abs _).symm
    _ ≤ Real.sqrt (Q1_mag P c ^ 2 + D ^ 2) :=
        Real.sqrt_le_sqrt (le_add_of_nonneg_right (sq_nonneg _))

lemma P_lt_S2_mag (P c D : ℝ) (hP : 0 < P) (hD : 0 < D) : P < S2_mag P c D := by
  rw [S2_mag_of_pos P c D hD]
  rw [Real.lt_sqrt hP.le]
  have h1 : P ^ 2 ≤ S1_mag P c ^ 2 := by
    have := le_S1_mag P c
    nlinarith [S1_mag_nonneg P c]
  nlinarith

lemma valid_iff (P c D : ℝ) :
    ¬(P ≤ 0 ∨ D < 0 ∨ ¬(0 < c ∧ c < 1)) ↔ (0 < P ∧ (0 < c ∧ c < 1) ∧ 0 ≤ D) := by
  push_neg
  tauto

@[simp] lemma Vec3.add_def (a b : Vec3) :
    a + b = ⟨a.x + b.x, a.y + b.y, a.z + b.z⟩ := rfl

@[simp] lemma Vec3.sub_def (a b : Vec3) :
    a - b = ⟨a.x - b.x, a.y - b.y, a.z - b.z⟩ := rfl

lemma update_plot_invalid (fmt : ℝ → String) (P c D : ℝ) (s : UIState)
    (h : P ≤ 0 ∨ D < 0 ∨ ¬(0 < c ∧ c < 1)) :
    update_plot fmt P c D s = ({ s with arrows := [] }, some rangeErrorMsg) := by
  simp only [update_plot]
  rw [if_pos h]

lemma update_plot_valid_eq (fmt : ℝ → String) (P c D : ℝ) (s : UIState)
    (h : ¬(P ≤ 0 ∨ D < 0 ∨ ¬(0 < c ∧ c < 1))) :
    update_plot fmt P c D s =
      ({ arrows :=
           [⟨⟨0, 0, 0⟩, Pvec P, "r", "P"⟩, ⟨Pvec P, Q1vec P c, "maroon", "Q1"⟩,
            ⟨⟨0, 0, 0⟩, S1vec P c, "g", "S1"⟩] ++
           (if 0 < D then
              [⟨S1vec P c, Dvec D, "orange", "D"⟩,
               ⟨Pvec P, Q2vec P c D, "purple", "Q2"⟩,
               ⟨⟨0, 0, 0⟩, S2vec P c D, "b", "S2"⟩]
            else []),
         xlim := (0, max P D * 2), ylim := (0, max P D * 2),
         zlim := (0, max P D * 2),
         reportText := update_text_box fmt P c D (S1_mag P c) (Q1_mag P c)
           (S2_mag P c D) (Q2_mag P c D) (fi c) (theta P c D) }, none) := by
  simp only [update_plot]
  rw [if_neg h]

/-! ### Claim theorems -/

/-- C3: for every `P > 0` and `0 < cos(φ) < 1`, the computed values
satisfy `Q1 = P * tan(arccos(cosφ))` and `S1 = sqrt(P² + Q1²)`, and
`S1 ≥ P` always holds. -/
theorem C3_calculator_Q1_S1 (P c : ℝ) (hP : 0 < P) (hc0 : 0 < c) (hc1 : c < 1) :
    Q1_mag P c = P * Real.tan (Real.arccos c) ∧
    S1_mag P c = Real.sqrt (P ^ 2 + Q1_mag P c ^ 2) ∧
    P ≤ S1_mag P c :=
  ⟨rfl, rfl, le_S1_mag P c⟩

theorem C3_calculator_Q1_S1_witness :
    (0 : ℝ) < 1 ∧ (0 : ℝ) < 1 / 2 ∧ (1 / 2 : ℝ) < 1 ∧
    (Q1_mag 1 (1 / 2) = 1 * Real.tan (Real.arccos (1 / 2)) ∧
     S1_mag 1 (1 / 2) = Real.sqrt (1 ^ 2 + Q1_mag 1 (1 / 2) ^ 2) ∧
     (1 : ℝ) ≤ S1_mag 1 (1 / 2)) :=
  ⟨by norm_num, by norm_num, by norm_num,
   C3_calculator_Q1_S1 1 (1 / 2) (by norm_num) (by norm_num) (by norm_num)⟩

/-- C5: for every valid input with `D > 0`, the derived values are
`S2 = sqrt(S1² + D²)`, `Q2 = sqrt(Q1² + D²)` and
`theta = arccos(P / S2)`. -/
theorem C5_d_pos_formulas (P c D : ℝ) (hP : 0 < P) (hc0 : 0 < c) (hc1 : c < 1)
    (hD : 0 < D) :
    S2_mag P c D = Real.sqrt (S1_mag P c ^ 2 + D ^ 2) ∧
    Q2_mag P c D = Real.sqrt (Q1_mag P c ^ 2 + D ^ 2) ∧
    theta P c D = Real.arccos (P / S2_mag P c D) := by
  refine ⟨S2_mag_of_pos P c D hD, Q2_mag_of_pos P c D hD, ?_⟩
  unfold theta
  rw [if_neg hD.ne']

theorem C5_d_pos_formulas_witness :
    (0 : ℝ) < 1 ∧ (0 : ℝ) < 1 / 2 ∧ (1 / 2 : ℝ) < 1 ∧ (0 : ℝ) < 2 ∧
    (S2_mag 1 (1 / 2) 2 = Real.sqrt (S1_mag 1 (1 / 2) ^ 2 + 2 ^ 2) ∧
     Q2_mag 1 (1 / 2) 2 = Real.sqrt (Q1_mag 1 (1 / 2) ^ 2 + 2 ^ 2) ∧
     theta 1 (1 / 2) 2 = Real.arccos (1 / S2_mag 1 (1 / 2) 2)) :=
  ⟨by norm_num, by norm_num, by norm_num, by norm_num,
   C5_d_pos_formulas 1 (1 / 2) 2 (by norm_num) (by norm_num) (by norm_num) (by norm_num)⟩

/-- C6: for every valid input with `D > 0`, apparent and reactive power
are monotonically non-decreasing in the distortion: `S2 ≥ S1` and
`Q2 ≥ Q1`. -/
theorem C6_monotone_in_distortion (P c D : ℝ) (hP : 0 < P) (hc0 : 0 < c)
    (hc1 : c < 1) (hD : 0 < D) :
    S1_mag P c ≤ S2_mag P c D ∧ Q1_mag P c ≤ Q2_mag P c D :=
  ⟨S1_le_S2 P c D hD, Q1_le_Q2 P c D hD⟩

theorem C6_monotone_in_distortion_witness :
    (0 : ℝ) < 1 ∧ (0 : ℝ) < 1 / 2 ∧ (1 / 2 : ℝ) < 1 ∧ (0 : ℝ) < 3 ∧
    (S1_mag 1 (1 / 2) ≤ S2_mag 1 (1 / 2) 3 ∧
     Q1_mag 1 (1 / 2) ≤ Q2_mag 1 (1 / 2) 3) :=
  ⟨by norm_num, by norm_num, by norm_num, by norm_num,
   C6_monotone_in_distortion 1 (1 / 2) 3 (by norm_num) (by norm_num) (by norm_num)
     (by norm_num)⟩

/-- C1 as stated is false: on a numeric submission that fails validation
(here `P = 0` against the default plot), the previously drawn arrows
have already been removed when the error is raised, so the plot state is
not left unchanged. -/
theorem C1_counterexample :
    (submit fmt0 (some 0) (some 0.8) (some 1) defaultUI).arrows = [] ∧
    defaultUI.arrows ≠ [] := by
  constructor
  · norm_num [submit, update_plot]
  · show (update_plot fmt0 1 0.8 1 initialUI).1.arrows ≠ []
    rw [update_plot_valid_eq fmt0 1 0.8 1 initialUI (by norm_num)]
    norm_num
    exact List.cons_ne_nil _ _

/-- C1 (amended): for every numeric submission that fails validation the
error is caught at the dispatch boundary and the report text and all
three axis limits are left unchanged and no new arrow is drawn, but the
previously drawn arrows are removed (the clearing loop of lines 8-9 runs
before the validation of line 12); a submission whose text fails numeric
parsing leaves the whole state unchanged. -/
theorem C1_amended_invalid_submit (fmt : ℝ → String) (P c D : ℝ) (s : UIState)
    (h : P ≤ 0 ∨ D < 0 ∨ ¬(0 < c ∧ c < 1)) :
    (submit fmt (some P) (some c) (some D) s).arrows = [] ∧
    (submit fmt (some P) (some c) (some D) s).reportText = s.reportText ∧
    (submit fmt (some P) (some c) (some D) s).xlim = s.xlim ∧
    (submit fmt (some P) (some c) (some D) s).ylim = s.ylim ∧
    (submit fmt (some P) (some c) (some D) s).zlim = s.zlim ∧
    submit fmt none (some c) (some D) s = s ∧
    submit fmt (some P) none (some D) s = s ∧
    submit fmt (some P) (some c) none s = s := by
  have hs : submit fmt (some P) (some c) (some D) s = (update_plot fmt P c D s).1 := rfl
  rw [hs, update_plot_invalid fmt P c D s h]
  exact ⟨rfl, rfl, rfl, rfl, rfl, rfl, rfl, rfl⟩

theorem C1_amended_invalid_submit_witness :
    ((0 : ℝ) ≤ 0 ∨ (1 : ℝ) < 0 ∨ ¬((0 : ℝ) < 0.8 ∧ (0.8 : ℝ) < 1)) ∧
    ((submit fmt0 (some 0) (some 0.8) (some 1) initialUI).arrows = [] ∧
     (submit fmt0 (some 0) (some 0.8) (some 1) initialUI).reportText =
       initialUI.reportText ∧
     (submit fmt0 (some 0) (some 0.8) (some 1) initialUI).xlim = initialUI.xlim ∧
     (submit fmt0 (some 0) (some 0.8) (some 1) initialUI).ylim = initialUI.ylim ∧
     (submit fmt0 (some 0) (some 0.8) (some 1) initialUI).zlim = initialUI.zlim ∧
     submit fmt0 none (some 0.8) (some 1) initialUI = initialUI ∧
     submit fmt0 (some 0) none (some 1) initialUI = initialUI ∧
     submit fmt0 (some 0) (some 0.8) none initialUI = initialUI) :=
  ⟨Or.inl le_rfl,
   C1_amended_invalid_submit fmt0 0 0.8 1 initialUI (Or.inl le_rfl)⟩

/-- C2: the calculator raises its "value out of range" error exactly
when `P ≤ 0`, `D < 0`, or `cos(φ)` lies outside the open interval
`(0, 1)`; on every triple with `P > 0`, `0 < cos(φ) < 1` and `D ≥ 0`
it completes without error. -/
theorem C2_validation_iff (fmt : ℝ → String) (P c D : ℝ) (s : UIState) :
    ((update_plot fmt P c D s).2 = some rangeErrorMsg ↔
      (P ≤ 0 ∨ D < 0 ∨ ¬(0 < c ∧ c < 1))) ∧
    ((update_plot fmt P c D s).2 = none ↔
      (0 < P ∧ (0 < c ∧ c < 1) ∧ 0 ≤ D)) := by
  by_cases h : P ≤ 0 ∨ D < 0 ∨ ¬(0 < c ∧ c < 1)
  · rw [update_plot_invalid fmt P c D s h]
    exact ⟨⟨fun _ => h, fun _ => rfl⟩,
           ⟨fun hx => (Option.some_ne_none _ hx).elim,
            fun hvv => ((valid_iff P c D).mpr hvv h).elim⟩⟩
  · rw [update_plot_valid_eq fmt P c D s h]
    exact ⟨⟨fun hx => Option.noConfusion hx, fun hc => absurd hc h⟩,
           ⟨fun _ => (valid_iff P c D).mp h, fun _ => rfl⟩⟩

/-- C4: for every valid input with `D = 0`, the derived values are
`S2 = 0`, `Q2 = 0`, `θ = 0`; only the `P`, `Q1`, `S1` arrows are drawn
(no `D`, `Q2` or `S2` arrow); and the report displays the `S2`, `Q2`,
power-factor and `θ` figures as literal zeros. -/
theorem C4_d_zero_suppression (fmt : ℝ → String) (P c : ℝ) (s : UIState)
    (hP : 0 < P) (hc0 : 0 < c) (hc1 : c < 1) :
    S2_mag P c 0 = 0 ∧ Q2_mag P c 0 = 0 ∧ theta P c 0 = 0 ∧
    (update_plot fmt P c 0 s).1.arrows.map Arrow.label = ["P", "Q1", "S1"] ∧
    (update_plot fmt P c 0 s).1.reportText =
      " • Apparent Power (S1): " ++ fmt (S1_mag P c) ++ " kVA\n\n" ++
      " • Reactive Power (Q1): " ++ fmt (Q1_mag P c) ++ " kVAr\n\n" ++
      " • Active Power (P): " ++ fmt P ++ " kW\n\n" ++
      " • Cos(φ): " ++ fmt c ++ "\n\n" ++
      " • Angle φ: " ++ fmt (degrees (fi c)) ++ "°\n\n" ++
      " • Harmonic Distortion (D): " ++ fmt 0 ++ " kVAr\n\n" ++
      " • Apparent Power (S2): 0 kVA\n\n" ++
      " • Reactive Power (Q2): 0 kVAr\n\n" ++
      " • Power Factor: 0\n\n" ++
      " • Angle θ: 0°" := by
  have hcond : ¬(P ≤ 0 ∨ (0 : ℝ) < 0 ∨ ¬(0 < c ∧ c < 1)) :=
    (valid_iff P c 0).mpr ⟨hP, ⟨hc0, hc1⟩, le_refl 0⟩
  refine ⟨?_, ?_, ?_, ?_, ?_⟩
  · unfold S2_mag; rw [if_pos rfl]
  · unfold Q2_mag; rw [if_pos rfl]
  · unfold theta; rw [if_pos rfl]
  · rw [update_plot_valid_eq fmt P c 0 s hcond]
    norm_num
  · rw [update_plot_valid_eq fmt P c 0 s hcond]
    simp only [update_text_box]
    simp

theorem C4_d_zero_suppression_witness :
    (0 : ℝ) < 1 ∧ (0 : ℝ) < 1 / 2 ∧ (1 / 2 : ℝ) < 1 ∧
    (S2_mag 1 (1 / 2) 0 = 0 ∧ Q2_mag 1 (1 / 2) 0 = 0 ∧ theta 1 (1 / 2) 0 = 0 ∧
     (update_plot fmt0 1 (1 / 2) 0 initialUI).1.arrows.map Arrow.label =
       ["P", "Q1", "S1"] ∧
     (update_plot fmt0 1 (1 / 2) 0 initialUI).1.reportText =
       " • Apparent Power (S1): " ++ fmt0 (S1_mag 1 (1 / 2)) ++ " kVA\n\n" ++
       " • Reactive Power (Q1): " ++ fmt0 (Q1_mag 1 (1 / 2)) ++ " kVAr\n\n" ++
       " • Active Power (P): " ++ fmt0 1 ++ " kW\n\n" ++
       " • Cos(φ): " ++ fmt0 (1 / 2) ++ "\n\n" ++
       " • Angle φ: " ++ fmt0 (degrees (fi (1 / 2))) ++ "°\n\n" ++
       " • Harmonic Distortion (D): " ++ fmt0 0 ++ " kVAr\n\n" ++
       " • Apparent Power (S2): 0 kVA\n\n" ++
       " • Reactive Power (Q2): 0 kVAr\n\n" ++
       " • Power Factor: 0\n\n" ++
       " • Angle θ: 0°") :=
  ⟨by norm_num, by norm_num, by norm_num,
   C4_d_zero_suppression fmt0 1 (1 / 2) initialUI (by norm_num) (by norm_num)
     (by norm_num)⟩

/-- C7: whenever `S2 > 0` (every valid input with `D > 0`), the reported
power factor `P / S2` lies in the half-open interval `(0, 1]`. -/
theorem C7_power_factor_range (P c D : ℝ) (hP : 0 < P) (hc0 : 0 < c)
    (hc1 : c < 1) (hD : 0 < D) :
    0 < S2_mag P c D ∧ 0 < P / S2_mag P c D ∧ P / S2_mag P c D ≤ 1 := by
  have hS2 := S2_mag_pos P c D hD
  exact ⟨hS2, div_pos hP hS2, (div_le_one hS2).mpr (P_lt_S2_mag P c D hP hD).le⟩

theorem C7_power_factor_range_witness :
    (0 : ℝ) < 1 ∧ (0 : ℝ) < 1 / 2 ∧ (1 / 2 : ℝ) < 1 ∧ (0 : ℝ) < 1 ∧
    (0 < S2_mag 1 (1 / 2) 1 ∧ 0 < 1 / S2_mag 1 (1 / 2) 1 ∧
     1 / S2_mag 1 (1 / 2) 1 ≤ 1) :=
  ⟨by norm_num, by norm_num, by norm_num, by norm_num,
   C7_power_factor_range 1 (1 / 2) 1 (by norm_num) (by norm_num) (by norm_num)
     (by norm_num)⟩

/-- C8: for every valid input the drawn vector endpoints reconstruct the
derived magnitudes exactly — the norm of the `S1` endpoint is `S1`, and
when `D > 0` (the only case in which the `S2` and `Q2` arrows are drawn)
the norm of the `S2` endpoint is `S2` and the norm of the `Q2` vector is
`Q2`; moreover the update recomputes the whole UI state from the three
current values alone, independently of any previous state. -/
theorem C8_vectors_reconstruct (fmt : ℝ → String) (P c D : ℝ) (s s' : UIState)
    (hP : 0 < P) (hc0 : 0 < c) (hc1 : c < 1) (hD : 0 ≤ D) :
    Vec3.norm (S1vec P c) = S1_mag P c ∧
    (D = 0 ∨ (Vec3.norm (S2vec P c D) = S2_mag P c D ∧
              Vec3.norm (Q2vec P c D) = Q2_mag P c D)) ∧
    (update_plot fmt P c D s).1 = (update_plot fmt P c D s').1 := by
  have hcond : ¬(P ≤ 0 ∨ D < 0 ∨ ¬(0 < c ∧ c < 1)) :=
    (valid_iff P c D).mpr ⟨hP, ⟨hc0, hc1⟩, hD⟩
  have e1 : S1_mag P c ^ 2 = P ^ 2 + Q1_mag P c ^ 2 :=
    Real.sq_sqrt (by positivity)
  refine ⟨?_, ?_, ?_⟩
  · simp [Vec3.norm, S1vec, Pvec, Q1vec, S1_mag]
  · rcases hD.lt_or_eq with hpos | heq
    · refine Or.inr ⟨?_, ?_⟩
      · rw [S2_mag_of_pos P c D hpos, e1]
        simp [Vec3.norm, S2vec, S1vec, Pvec, Q1vec, Dvec]
      · rw [Q2_mag_of_pos P c D hpos]
        simp [Vec3.norm, Q2vec, S2vec, S1vec, Pvec, Q1vec, Dvec]
    · exact Or.inl heq.symm
  · rw [update_plot_valid_eq fmt P c D s hcond,
        update_plot_valid_eq fmt P c D s' hcond]

theorem C8_vectors_reconstruct_witness :
    (0 : ℝ) < 1 ∧ (0 : ℝ) < 1 / 2 ∧ (1 / 2 : ℝ) < 1 ∧ (0 : ℝ) ≤ 1 ∧
    (Vec3.norm (S1vec 1 (1 / 2)) = S1_mag 1 (1 / 2) ∧
     ((1 : ℝ) = 0 ∨ (Vec3.norm (S2vec 1 (1 / 2) 1) = S2_mag 1 (1 / 2) 1 ∧
                     Vec3.norm (Q2vec 1 (1 / 2) 1) = Q2_mag 1 (1 / 2) 1)) ∧
     (update_plot fmt0 1 (1 / 2) 1 initialUI).1 =
       (update_plot fmt0 1 (1 / 2) 1 defaultUI).1) :=
  ⟨by norm_num, by norm_num, by norm_num, by norm_num,
   C8_vectors_reconstruct fmt0 1 (1 / 2) 1 initialUI defaultUI (by norm_num)
     (by norm_num) (by norm_num) (by norm_num)⟩

/-- C9: on every successful update, the x, y and z axis limits are all
set to the same range `[0, 2 * max(P, D)]`. -/
theorem C9_axis_limits_rescaled (fmt : ℝ → String) (P c D : ℝ) (s : UIState)
    (hP : 0 < P) (hc0 : 0 < c) (hc1 : c < 1) (hD : 0 ≤ D) :
    (update_plot fmt P c D s).1.xlim = (0, 2 * max P D) ∧
    (update_plot fmt P c D s).1.ylim = (0, 2 * max P D) ∧
    (update_plot fmt P c D s).1.zlim = (0, 2 * max P D) := by
  have hcond : ¬(P ≤ 0 ∨ D < 0 ∨ ¬(0 < c ∧ c < 1)) :=
    (valid_iff P c D).mpr ⟨hP, ⟨hc0, hc1⟩, hD⟩
  rw [update_plot_valid_eq fmt P c D s hcond]
  refine ⟨?_, ?_, ?_⟩ <;> simp [mul_comm]

theorem C9_axis_limits_rescaled_witness :
    (0 : ℝ) < 2 ∧ (0 : ℝ) < 1 / 2 ∧ (1 / 2 : ℝ) < 1 ∧ (0 : ℝ) ≤ 3 ∧
    ((update_plot fmt0 2 (1 / 2) 3 initialUI).1.xlim = (0, 2 * max 2 3) ∧
     (update_plot fmt0 2 (1 / 2) 3 initialUI).1.ylim = (0, 2 * max 2 3) ∧
     (update_plot fmt0 2 (1 / 2) 3 initialUI).1.zlim = (0, 2 * max 2 3)) :=
  ⟨by norm_num, by norm_num, by norm_num, by norm_num,
   C9_axis_limits_rescaled fmt0 2 (1 / 2) 3 initialUI (by norm_num) (by norm_num)
     (by norm_num) (by norm_num)⟩

/-- C10 (implicit): the division `P / S2` and the `arccos` applied to
its result are evaluated only in the `D > 0` branch, where
`S2 = sqrt(S1² + D²) ≥ D > 0` and `P < S2`, so the divisor is nonzero
and the `arccos` argument lies strictly inside `(0, 1)` — for `theta` in
the calculator and for the power-factor figure in the report alike. -/
theorem C10_division_welldefined (P c D : ℝ) (hP : 0 < P) (hc0 : 0 < c)
    (hc1 : c < 1) (hD : 0 < D) :
    D ≤ S2_mag P c D ∧ S2_mag P c D ≠ 0 ∧ P < S2_mag P c D ∧
    0 < P / S2_mag P c D ∧ P / S2_mag P c D < 1 := by
  have hS2 := S2_mag_pos P c D hD
  have hlt := P_lt_S2_mag P c D hP hD
  have hDle : D ≤ S2_mag P c D := by
    rw [S2_mag_of_pos P c D hD]
    calc D ≤ |D| := le_abs_self D
      _ = Real.sqrt (D ^ 2) := (Real.sqrt_sq_eq_abs D).symm
      _ ≤ Real.sqrt (S1_mag P c ^ 2 + D ^ 2) :=
          Real.sqrt_le_sqrt (le_add_of_nonneg_left (sq_nonneg _))
  exact ⟨hDle, hS2.ne', hlt, div_pos hP hS2, (div_lt_one hS2).mpr hlt⟩

theorem C10_division_welldefined_witness :
    (0 : ℝ) < 2 ∧ (0 : ℝ) < 1 / 2 ∧ (1 / 2 : ℝ) < 1 ∧ (0 : ℝ) < 1 ∧
    (1 ≤ S2_mag 2 (1 / 2) 1 ∧ S2_mag 2 (1 / 2) 1 ≠ 0 ∧ 2 < S2_mag 2 (1 / 2) 1 ∧
     0 < 2 / S2_mag 2 (1 / 2) 1 ∧ 2 / S2_mag 2 (1 / 2) 1 < 1) :=
  ⟨by norm_num, by norm_num, by norm_num, by norm_num,
   C10_division_welldefined 2 (1 / 2) 1 (by norm_num) (by norm_num) (by norm_num)
     (by norm_num)⟩

end PowerTriangle
